import Mathlib

/-!
Shallow embedding of the Viral-AI-shorts repository (TypeScript) for
specification checking.

JavaScript strings are embedded as `List Char` (`JsString`), and the
JavaScript string builtins used by the source (`trim`, `startsWith`,
`endsWith`, `substring`, `split`, `includes`, `toLowerCase`, `parseInt`)
are given executable models below with JS semantics.  Network calls and
`JSON.parse` are external to the program and are passed in as explicit
oracles.  Thrown `Error` objects are modelled by `JsError` carrying the
message string, and a function that may throw returns `Except JsError α`.
-/

/-- JavaScript strings, embedded as lists of characters. -/
abbrev JsString := List Char

/-- Coercion from Lean string literals to the embedding. -/
def jsOfString (s : String) : JsString := s.data

/-- Whitespace characters removed by JavaScript `String.prototype.trim`
(the ASCII white space and line terminators, plus NBSP and the BOM). -/
def isJsWhitespace (c : Char) : Bool :=
  c = ' ' || c = '\t' || c = '\n' || c = '\r' ||
  c = Char.ofNat 11 || c = Char.ofNat 12 ||
  c = Char.ofNat 160 || c = Char.ofNat 65279

/-- Model of JavaScript `s.trim()`: drop whitespace from both ends. -/
def jsTrim (s : JsString) : JsString :=
  ((s.dropWhile isJsWhitespace).reverse.dropWhile isJsWhitespace).reverse

/-- Model of JavaScript `s.startsWith(p)`. -/
def jsStartsWith (s p : JsString) : Bool := p.isPrefixOf s

/-- Model of JavaScript `s.endsWith(p)`. -/
def jsEndsWith (s p : JsString) : Bool := p.isSuffixOf s

/-- Model of JavaScript `s.includes(sub)`. -/
def jsIncludes : JsString → JsString → Bool
  | [], sub => sub.isEmpty
  | c :: rest, sub => sub.isPrefixOf (c :: rest) || jsIncludes rest sub

/-- Index of the first occurrence of `sub` in `s` (JavaScript `s.indexOf(sub)`,
with `none` for `-1`). -/
def jsIndexOfSub : JsString → JsString → Option Nat
  | [], sub => if sub.isEmpty then some 0 else none
  | c :: rest, sub =>
    if sub.isPrefixOf (c :: rest) then some 0
    else (jsIndexOfSub rest sub).map (· + 1)

/-- Model of JavaScript `s.toLowerCase()` (ASCII-correct, which covers all
strings the source compares after lower-casing). -/
def jsToLower (s : JsString) : JsString := s.map Char.toLower

/-- Fuelled worker for splitting on a non-empty literal separator.  Each step
consumes at least one character, so fuel `s.length + 1` is exact. -/
def jsSplitOnAux (sep : JsString) : Nat → JsString → JsString → List JsString
  | 0, s, acc => [acc.reverse ++ s]
  | _ + 1, [], acc => [acc.reverse]
  | fuel + 1, c :: rest, acc =>
    if sep.isPrefixOf (c :: rest) then
      acc.reverse :: jsSplitOnAux sep fuel ((c :: rest).drop sep.length) []
    else
      jsSplitOnAux sep fuel rest (c :: acc)

/-- Model of JavaScript `s.split(sep)` for a non-empty literal separator
(also the behaviour of `split(/\n---\n/)`: the regex has no classes, so it
splits on the literal text). -/
def jsSplitOn (s sep : JsString) : List JsString :=
  if sep.isEmpty then [s] else jsSplitOnAux sep (s.length + 1) s []

/-- Model of JavaScript `parts.join(sep)`. -/
def jsJoin (sep : JsString) : List JsString → JsString
  | [] => []
  | [p] => p
  | p :: ps => p ++ sep ++ jsJoin sep ps

/-- Model of JavaScript `parseInt(s, 10)`: skip leading whitespace, read an
optional sign and then decimal digits; `none` models `NaN`. -/
def jsParseInt (s : JsString) : Option Int :=
  let t := s.dropWhile isJsWhitespace
  let (neg, t) := match t with
    | '-' :: rest => (true, rest)
    | '+' :: rest => (false, rest)
    | _ => (false, t)
  let digits := t.takeWhile Char.isDigit
  if digits.isEmpty then none
  else
    let n : Nat := digits.foldl (fun acc c => acc * 10 + (c.toNat - '0'.toNat)) 0
    some (if neg then -(n : Int) else (n : Int))

/-- Thrown JavaScript `Error` objects, identified by their message. -/
structure JsError where
  message : JsString
deriving DecidableEq, Repr

/-- Modelled from the spec: the error taxonomy of §7 (`ConfigError`,
`ServiceError`, `FormatError`).  The source throws plain `Error`s, so the
taxonomy classifies them by message: the two missing-credential messages are
`ConfigError`, the missing-download-link message is the `FormatError`
example given in §7 of the spec, and every other thrown error is a
`ServiceError`. -/
inductive ErrorKind
  | ConfigError
  | ServiceError
  | FormatError
deriving DecidableEq, Repr

/-- The error thrown by `getGenAIClient` when `process.env.API_KEY` is
absent (src/services/geminiService.ts line 8). -/
def apiKeyMissingError : JsError :=
  ⟨jsOfString "API_KEY environment variable is not set."⟩

/-- The error thrown at src/services/geminiService.ts line 172. -/
def apiKeyMissingForDownloadError : JsError :=
  ⟨jsOfString "API_KEY environment variable is not set for downloading video."⟩

/-- The error thrown at src/services/geminiService.ts line 168. -/
def noDownloadLinkError : JsError :=
  ⟨jsOfString "Video generation succeeded but no download link was found."⟩

/-- Modelled from the spec: classification of a thrown error into the §7
taxonomy, by message. -/
def errorKind (e : JsError) : ErrorKind :=
  if e = apiKeyMissingError ∨ e = apiKeyMissingForDownloadError then .ConfigError
  else if e = noDownloadLinkError then .FormatError
  else .ServiceError

instance {ε α : Type} [DecidableEq ε] [DecidableEq α] : DecidableEq (Except ε α) :=
  fun x y =>
    match x, y with
    | .ok a, .ok b => decidable_of_iff (a = b) (by simp)
    | .error a, .error b => decidable_of_iff (a = b) (by simp)
    | .ok _, .error _ => .isFalse (fun hc => Except.noConfusion hc)
    | .error _, .ok _ => .isFalse (fun hc => Except.noConfusion hc)

/-- Result of one orchestrator operation: what it returned or threw, and
whether any network request was issued before that outcome. -/
structure CallResult (α : Type) where
  result : Except JsError α
  networkAttempted : Bool
deriving DecidableEq, Repr

/-- Modelled from the spec: `Genre` is a closed user-facing enumeration
defined in src/types.ts, which is not included under src/.  The listed
constructors are representative members of the closed set; no operation in
the embedded code inspects the genre beyond substituting it into a prompt. -/
inductive Genre
  | comedy
  | horror
  | educational
  | lifestyle
deriving DecidableEq, Repr

/-- Modelled from the spec: `Duration` is a closed enumeration of short-form
lengths defined in src/types.ts (the source references `Duration.Shorts30`),
which is not included under src/. -/
inductive Duration
  | shorts15
  | shorts30
  | shorts60
deriving DecidableEq, Repr

/-- Modelled from the spec: the `Idea` record of src/types.ts (title,
concept, story arc, genre, target duration, plus the visual/audio cues the
video operation reads). -/
structure Idea where
  title : JsString
  concept : JsString
  storyArc : JsString
  visualsAndAudio : JsString
  genre : Genre
  duration : Duration
deriving DecidableEq, Repr

/-- Modelled from the spec: the `SeoContent` record of src/types.ts
(required `title`, `description` and `tags`). -/
structure SeoContent where
  title : JsString
  description : JsString
  tags : List JsString
deriving DecidableEq, Repr

/-- The error thrown from the catch block of `generateShortsIdeas`
(src/services/geminiService.ts line 30). -/
def generateIdeasFailedError : JsError :=
  ⟨jsOfString "Failed to generate ideas from Gemini API."⟩

/-- The error thrown from the catch block of `finalizeScriptAsJson`
(src/services/geminiService.ts line 131). -/
def finalizeScriptFailedError : JsError :=
  ⟨jsOfString "Failed to finalize script as JSON from Gemini API."⟩

/-- The error thrown from the catch block of `getTrendingTopics`
(src/services/geminiService.ts line 209). -/
def trendingTopicsFailedError : JsError :=
  ⟨jsOfString "Failed to get trending topics from Gemini API."⟩

/-- The error thrown from the catch block of `generateSeoContent`
(src/services/geminiService.ts line 252). -/
def seoContentFailedError : JsError :=
  ⟨jsOfString "Failed to generate SEO content from Gemini API."⟩

/-- Model of `generateShortsIdeas` (src/services/geminiService.ts lines
14-32).  `apiKey` is `process.env.API_KEY` (`none` = unset/empty, both falsy);
`net` is the outcome of the `ai.models.generateContent` call, an oracle for
the external endpoint.  `getGenAIClient` runs before the try block, so a
missing key throws `apiKeyMissingError` uncaught, with no network request;
any error thrown inside the try block is caught and rethrown as
`generateIdeasFailedError`. -/
def generateShortsIdeas (apiKey : Option JsString)
    (net : Except JsError JsString) (_genre : Genre) (_duration : Duration) :
    CallResult JsString :=
  match apiKey with
  | none => ⟨.error apiKeyMissingError, false⟩
  | some _ =>
    match net with
    | .ok text => ⟨.ok text, true⟩
    | .error _ => ⟨.error generateIdeasFailedError, true⟩

/-- The markdown-fence stripping step of `finalizeScriptAsJson`
(src/services/geminiService.ts lines 119-127): trim, drop a leading
`` ```json `` marker (7 characters) if present, drop a trailing `` ``` ``
marker (3 characters) if present, trim again. -/
def stripFences (responseText : JsString) : JsString :=
  let jsonText := jsTrim responseText
  let jsonText :=
    if jsStartsWith jsonText (jsOfString "```json") then jsonText.drop 7
    else jsonText
  let jsonText :=
    if jsEndsWith jsonText (jsOfString "```") then
      jsonText.take (jsonText.length - 3)
    else jsonText
  jsTrim jsonText

/-- Model of `finalizeScriptAsJson` (src/services/geminiService.ts lines
101-133): missing key throws before the try block; a successful response is
fence-stripped; an error inside the try block is caught and rethrown as
`finalizeScriptFailedError`. -/
def finalizeScriptAsJson (apiKey : Option JsString)
    (net : Except JsError JsString) (_finalScript _sceneDuration : JsString)
    (_numberOfScenes : Option Int) : CallResult JsString :=
  match apiKey with
  | none => ⟨.error apiKeyMissingError, false⟩
  | some _ =>
    match net with
    | .ok text => ⟨.ok (stripFences text), true⟩
    | .error _ => ⟨.error finalizeScriptFailedError, true⟩

/-- The response-text post-processing of `getTrendingTopics`
(src/services/geminiService.ts lines 204-206): trim; an empty trimmed text
yields `[]`; otherwise split on commas and trim and lower-case each entry. -/
def parseTrendingTopics (responseText : JsString) : List JsString :=
  let topicsText := jsTrim responseText
  if topicsText.isEmpty then []
  else (jsSplitOn topicsText (jsOfString ",")).map (fun t => jsToLower (jsTrim t))

/-- Model of `getTrendingTopics` (src/services/geminiService.ts lines
192-211). -/
def getTrendingTopics (apiKey : Option JsString)
    (net : Except JsError JsString) (_genres : List Genre) :
    CallResult (List JsString) :=
  match apiKey with
  | none => ⟨.error apiKeyMissingError, false⟩
  | some _ =>
    match net with
    | .ok text => ⟨.ok (parseTrendingTopics text), true⟩
    | .error _ => ⟨.error trendingTopicsFailedError, true⟩

/-- Model of `generateSeoContent` (src/services/geminiService.ts lines
213-254).  `jsonParse` is an oracle for the host `JSON.parse` composed with
the cast to `SeoContent` (`none` models a thrown `SyntaxError`).  The parse
happens INSIDE the try block, so a parse failure is caught with every other
failure and rethrown as `seoContentFailedError`. -/
def generateSeoContent (apiKey : Option JsString)
    (net : Except JsError JsString)
    (jsonParse : JsString → Option SeoContent)
    (_finalJsonScript : JsString) (_idea : Idea) : CallResult SeoContent :=
  match apiKey with
  | none => ⟨.error apiKeyMissingError, false⟩
  | some _ =>
    match net with
    | .ok text =>
      match jsonParse (jsTrim text) with
      | some seo => ⟨.ok seo, true⟩
      | none => ⟨.error seoContentFailedError, true⟩
    | .error _ => ⟨.error seoContentFailedError, true⟩

/-!
ScriptGeneratorModal (src/components/ScriptGeneratorModal.tsx).
-/

/-- Result of the first `useMemo` of `ScriptGeneratorModal`
(src/components/ScriptGeneratorModal.tsx lines 40-47). -/
structure ScriptSections where
  narrationSuggestions : Option JsString
  scriptTable : Option JsString
deriving DecidableEq, Repr

/-- Model of the `narrationSuggestions`/`scriptTable` `useMemo`
(src/components/ScriptGeneratorModal.tsx lines 40-47): a falsy script (null
or empty) gives neither part; otherwise the script is split on the literal
`"\n---\n"` (the regex `/\n---\n/` has no metacharacters), and the first
part is a suggestion block only when there is more than one part and its
lower-cased text contains `"suggested narration styles"`; the table is the
trimmed rejoin of the remaining parts. -/
def splitScript (script : Option JsString) : ScriptSections :=
  match script with
  | none => ⟨none, none⟩
  | some s =>
    if s.isEmpty then ⟨none, none⟩
    else
      let parts := jsSplitOn s (jsOfString "\n---\n")
      match parts with
      | [] => ⟨none, some s⟩
      | p0 :: rest =>
        if rest.length > 0 &&
            jsIncludes (jsToLower p0) (jsOfString "suggested narration styles") then
          ⟨some p0, some (jsTrim (jsJoin (jsOfString "\n---\n") rest))⟩
        else ⟨none, some s⟩

/-- One parsed narration-style suggestion
(src/components/ScriptGeneratorModal.tsx line 60). -/
structure Suggestion where
  name : JsString
  description : JsString
  justification : JsString
deriving DecidableEq, Repr

/-- Test of the line filter regex `/^\d+\.\s*\*\*/`
(src/components/ScriptGeneratorModal.tsx line 52): one or more digits, a
dot, optional whitespace, then `**`. -/
def matchesSuggestionLead (line : JsString) : Bool :=
  let digits := line.takeWhile Char.isDigit
  !digits.isEmpty &&
    (match line.dropWhile Char.isDigit with
     | '.' :: r1 => jsStartsWith (r1.dropWhile isJsWhitespace) (jsOfString "**")
     | _ => false)

/-- Does `rem` match the optional tail group `(?:\s*\*(.*)\*)?` followed by
`$`?  The group must consume to the end of the line: `\s*` takes the maximal
whitespace run (no whitespace character is `*`), then a `*`, then the greedy
`(.*)` puts the closing `*` at the last character. -/
def tailStarMatch (rem : JsString) : Bool :=
  let st := rem.dropWhile isJsWhitespace
  2 ≤ st.length &&
    (match st with
     | '*' :: _ => true
     | _ => false) &&
    st.getLast? = some '*'

/-- The captured `(.*)` of the tail group: the interior of
`\s*\*(.*)\*` once `tailStarMatch` holds. -/
def tailStarCapture (rem : JsString) : JsString :=
  ((rem.dropWhile isJsWhitespace).drop 1).dropLast

/-- Lazy split for `(.*?)(?:\s*\*(.*)\*)?$`: the engine grows the lazy
description capture one character at a time, so the match uses the shortest
prefix whose remainder either satisfies the tail group to end-of-line or is
empty (tail group skipped, capture 3 undefined = `none`). -/
def descSplit : JsString → JsString → JsString × Option JsString
  | acc, rem =>
    if tailStarMatch rem then (acc.reverse, some (tailStarCapture rem))
    else
      match rem with
      | [] => (acc.reverse, none)
      | c :: rest => descSplit (c :: acc) rest

/-- Model of the per-line match of `/^\d+\.\s*\*\*(.*?):\*\*(.*?)(?:\s*\*(.*)\*)?$/`
(src/components/ScriptGeneratorModal.tsx line 55), returning captures 1-3.
Lines never contain `\n` (the block was split on newlines first), so the
regex-`.` never meets a line terminator.  The lazy capture 1 stops at the
first `:**`; any choice of capture 2 can complete the match (at worst it
swallows the rest of the line with the optional group skipped), so no
backtracking past the first `:**` occurs. -/
def matchSuggestionLine (line : JsString) :
    Option (JsString × JsString × Option JsString) :=
  let digits := line.takeWhile Char.isDigit
  if digits.isEmpty then none
  else
    match line.dropWhile Char.isDigit with
    | '.' :: r1 =>
      match (r1.dropWhile isJsWhitespace) with
      | '*' :: '*' :: r3 =>
        match jsIndexOfSub r3 (jsOfString ":**") with
        | none => none
        | some i =>
          let name := r3.take i
          let (desc, just) := descSplit [] (r3.drop (i + 3))
          some (name, desc, just)
      | _ => none
    | _ => none

/-- Model of the `parsedSuggestions` `useMemo`
(src/components/ScriptGeneratorModal.tsx lines 49-64): trim the suggestion
block, split into lines, keep lines matching the lead regex, run the full
regex on each, and build name, description and justification with the
fallbacks of the source (a name trimming to the empty string becomes
`Unnamed Style`; a missing or empty capture 2 or 3 becomes the empty
string); non-matching lines map to `null` and are filtered out. -/
def parsedSuggestions (narrationSuggestions : Option JsString) :
    List Suggestion :=
  match narrationSuggestions with
  | none => []
  | some block =>
    let suggestionLines :=
      (jsSplitOn (jsTrim block) (jsOfString "\n")).filter matchesSuggestionLead
    suggestionLines.filterMap (fun line =>
      match matchSuggestionLine line with
      | none => none
      | some (name, desc, just) =>
        let name' := jsTrim name
        let name' := if name'.isEmpty then jsOfString "Unnamed Style" else name'
        let just' := match just with
          | none => []
          | some j => jsTrim j
        some ⟨name', jsTrim desc, just'⟩)

/-- Output of `renderScriptTable` with the JSX shell erased: either a table
with header cells and data-row cells, or the verbatim fallback `<pre>`
block. -/
inductive TableRender
  | table (header : List JsString) (rows : List (List JsString))
  | verbatim (text : JsString)
deriving DecidableEq, Repr

/-- The header-line predicate of `renderScriptTable`
(src/components/ScriptGeneratorModal.tsx line 96): the line contains a pipe
and, lower-cased, the word `"timestamp"`. -/
def isTimestampHeaderLine (line : JsString) : Bool :=
  jsIncludes line (jsOfString "|") &&
    jsIncludes (jsToLower line) (jsOfString "timestamp")

/-- Model of `renderScriptTable` (src/components/ScriptGeneratorModal.tsx
lines 93-137).  No header line yields the verbatim fallback.  Otherwise the
header index is `lines.indexOf(headerLine)` (first value-equal line), header
cells are the pipe-split trimmed non-empty pieces (`filter(Boolean)`), the
data rows start two lines later (skipping the separator row), each row is
pipe-split and trimmed with a leading-and-trailing empty cell pair sliced
off, and rows with fewer than two cells are discarded.  Every step is total,
so the catch branch of the source is unreachable; absence of a header is the
only fallback the function can take. -/
def renderScriptTable (markdown : JsString) : TableRender :=
  let lines := jsSplitOn (jsTrim markdown) (jsOfString "\n")
  match lines.find? isTimestampHeaderLine with
  | none => .verbatim markdown
  | some headerLine =>
    let headerIndex := lines.findIdx (fun l => l = headerLine)
    let header := ((jsSplitOn headerLine (jsOfString "|")).map jsTrim).filter
      (fun h => !h.isEmpty)
    let dataRows := lines.drop (headerIndex + 2)
    let rows := (dataRows.map (fun line =>
      let cells := (jsSplitOn line (jsOfString "|")).map jsTrim
      if cells.head? = some [] ∧ cells.getLast? = some [] then
        (cells.drop 1).dropLast
      else cells)).filter (fun row => row.length > 1)
    .table header rows

/-!
The finalize footer of `ScriptGeneratorModal`
(src/components/ScriptGeneratorModal.tsx lines 397-435), as a state machine
over the relevant `useState` fields and props of the component.
-/

/-- The arguments `onFinalize` is invoked with
(src/components/ScriptGeneratorModal.tsx line 428): the raw
`jsonSceneDuration` string and, when the `numberOfScenes` string is truthy
(non-empty), `parseInt(numberOfScenes, 10)` (`none` inside the inner option
models `NaN`). -/
structure FinalizeCall where
  sceneDuration : JsString
  numberOfScenes : Option (Option Int)
deriving DecidableEq, Repr

/-- The state of `ScriptGeneratorModal` relevant to the finalize footer:
the two text-input states (with `useState` initial values `15` and the
empty string), and the props gating whether the footer is rendered and the
button enabled. -/
structure ModalState where
  jsonSceneDuration : JsString
  numberOfScenes : JsString
  scriptPresent : Bool
  finalJsonPresent : Bool
  isLoading : Bool
deriving DecidableEq, Repr

/-- Initial modal state (src/components/ScriptGeneratorModal.tsx lines
34-36): `jsonSceneDuration` starts as the string `15`, `numberOfScenes` as
the empty string, and no script is present yet. -/
def initialModalState : ModalState :=
  ⟨jsOfString "15", jsOfString "", false, false, false⟩

/-- User and prop events reaching the finalize footer.  The two `set`
events are the `onChange` handlers of the number inputs (lines 406 and 419);
the inputs declare `min`/`max` attributes but an HTML number input does not
clamp typed values, so any string the browser accepts for a number input
reaches the state.  `scriptArrives` models the `script` prop becoming
non-null after a successful draft; `clickFinalize` is the footer button. -/
inductive ModalEvent
  | setNumberOfScenes (s : JsString)
  | setSceneDuration (s : JsString)
  | scriptArrives
  | clickFinalize
deriving DecidableEq, Repr

/-- One step of the modal: updates the state and, when the finalize button
fires, emits the `onFinalize` call.  The footer exists only when a script is
present and no final JSON exists yet (line 397) and the button is disabled
while loading (line 429); no other validation guards the call (line 428). -/
def modalStep (st : ModalState) (ev : ModalEvent) :
    ModalState × Option FinalizeCall :=
  match ev with
  | .setNumberOfScenes s => ({ st with numberOfScenes := s }, none)
  | .setSceneDuration s => ({ st with jsonSceneDuration := s }, none)
  | .scriptArrives => ({ st with scriptPresent := true }, none)
  | .clickFinalize =>
    if st.scriptPresent && !st.finalJsonPresent && !st.isLoading then
      (st, some ⟨st.jsonSceneDuration,
        if !st.numberOfScenes.isEmpty then some (jsParseInt st.numberOfScenes)
        else none⟩)
    else (st, none)

/-- Run a sequence of events from a state, collecting every `onFinalize`
invocation in order. -/
def modalRun (st : ModalState) : List ModalEvent → List FinalizeCall
  | [] => []
  | ev :: evs =>
    let (st', call) := modalStep st ev
    match call with
    | none => modalRun st' evs
    | some c => c :: modalRun st' evs

/-!
HistoryDetailModal (src/components/HistoryDetailModal.tsx).
-/

/-- Modelled from the spec: the `ScriptHistoryItem` record of src/types.ts
(a History Item pairs an Idea, its finalized JSON script, and its SEO
content). -/
structure ScriptHistoryItem where
  idea : Idea
  jsonScript : JsString
  seoContent : SeoContent
deriving DecidableEq, Repr

/-- Outcome of rendering a value that may throw: either the rendered value
or a thrown exception escaping the render. -/
inductive RenderOutcome (α : Type)
  | rendered (v : α)
  | thrown
deriving DecidableEq, Repr

/-- Model of `renderJson` (src/components/HistoryDetailModal.tsx lines
29-33): `JSON.stringify(JSON.parse(jsonString), null, 2)` with no try/catch,
so a parse failure (`jsonParse _ = none`) propagates as a thrown exception.
`jsonParse` is the oracle for the host `JSON.parse`. -/
def renderJson {α : Type} (jsonParse : JsString → Option α)
    (jsonString : JsString) : RenderOutcome α :=
  match jsonParse jsonString with
  | some v => .rendered v
  | none => .thrown

/-- Model of the main body of `HistoryDetailModal`
(src/components/HistoryDetailModal.tsx lines 98-112): a null item renders
nothing (line 15); otherwise `renderJson(item.jsonScript)` is evaluated
unconditionally. -/
def historyDetailView {α : Type} (jsonParse : JsString → Option α)
    (item : Option ScriptHistoryItem) : Option (RenderOutcome α) :=
  match item with
  | none => none
  | some it => some (renderJson jsonParse it.jsonScript)

/-!
Concrete inputs taken from the claims.
-/

/-- The fenced response text of the fence-stripping claim:
`` ```json ``, a newline, the JSON array, a newline, `` ``` ``. -/
def fencedJsonResponse : JsString := jsOfString "```json\n[\x7b\"scene\":1\x7d]\n```"

/-- The expected clean JSON text of the fence-stripping claim. -/
def cleanJsonText : JsString := jsOfString "[\x7b\"scene\":1\x7d]"

/-- A response whose opening fence is a plain `` ``` `` line with no json
tag, ending with a `` ``` `` fence. -/
def plainFencedResponse : JsString := jsOfString "```\n[\x7b\"scene\":1\x7d]\n```"

/-- The draft text of the narration-parsing claim, exactly as the claim
states it: a numbered bold suggestion line, a three-dash separator line,
then a scene table, with NO header line naming the suggestion block. -/
def headerlessDraft : JsString :=
  jsOfString "1. **Calm:** soft tone *because it fits*\n---\n|Timestamp|Action|\n|-|-|\n|0:00|Open|"

/-- The draft text of the narration-parsing claim with the
`Suggested Narration Styles` header line the source requires prepended. -/
def headeredDraft : JsString :=
  jsOfString "Suggested Narration Styles:\n1. **Calm:** soft tone *because it fits*\n---\n|Timestamp|Action|\n|-|-|\n|0:00|Open|"

/-- The suggestion the narration-parsing claim expects. -/
def calmSuggestion : Suggestion :=
  ⟨jsOfString "Calm", jsOfString "soft tone", jsOfString "because it fits"⟩

/-- The scene-table text after the separator in the narration-parsing
claim. -/
def draftTableText : JsString :=
  jsOfString "|Timestamp|Action|\n|-|-|\n|0:00|Open|"

/-- The table block of the table-rendering claim: a Timestamp header row,
one separator row, one data row. -/
def timestampTableBlock : JsString :=
  jsOfString "|Timestamp|Action|\n|-|-|\n| 0:00 | Open |"

/-- A concrete idea used to instantiate operations whose behaviour does not
depend on the idea. -/
def sampleIdea : Idea :=
  ⟨jsOfString "Sample", jsOfString "A concept", jsOfString "An arc",
   jsOfString "Cues", Genre.comedy, Duration.shorts30⟩

/-- A history item whose stored `jsonScript` is not valid JSON. -/
def sampleBadHistoryItem : ScriptHistoryItem :=
  ⟨sampleIdea, jsOfString "not json",
   ⟨jsOfString "t", jsOfString "d", []⟩⟩

/-!
Claim theorems.
-/

/-- C1: for every genre and duration of the supported enumerations, calling
`generateShortsIdeas` with no API credential configured fails with the
missing-key error, whose kind is `ConfigError` and no other kind, and no
network request is attempted (whatever the network oracle would have
answered). -/
theorem generateShortsIdeas_no_key_configError_before_network
    (genre : Genre) (duration : Duration) (net : Except JsError JsString) :
    generateShortsIdeas none net genre duration =
      ⟨.error apiKeyMissingError, false⟩ ∧
    errorKind apiKeyMissingError = .ConfigError := by
  exact ⟨rfl, by decide⟩

/-- C2: the fence-stripping step of `finalizeScriptAsJson`, applied to the
response text with a leading `` ```json `` marker and a trailing `` ``` ``
marker around the JSON array, returns exactly the clean JSON array text,
and the operation itself returns that text on this response. -/
theorem stripFences_fenced_json_example :
    stripFences fencedJsonResponse = cleanJsonText ∧
    finalizeScriptAsJson (some (jsOfString "key")) (.ok fencedJsonResponse)
      (jsOfString "script") (jsOfString "15") none =
      ⟨.ok cleanJsonText, true⟩ := by
  decide

/-- C3 counterexample: on the exact draft text of the claim (which has no
`suggested narration styles` header line), the code parses NO suggestions
at all — the claimed singleton list is not produced — and the whole text,
separator included, is treated as the scene table. -/
theorem parsedSuggestions_headerless_draft_empty :
    parsedSuggestions (splitScript (some headerlessDraft)).narrationSuggestions
      = [] ∧
    (splitScript (some headerlessDraft)).scriptTable = some headerlessDraft ∧
    ([] : List Suggestion) ≠ [calmSuggestion] := by
  decide

/-- C3 amended: once a `Suggested Narration Styles` header line (required
by the source at src/components/ScriptGeneratorModal.tsx line 43) precedes
the numbered suggestion, the parser yields exactly one suggestion with name
`Calm`, description `soft tone` and justification `because it fits`, and
the scene-table text begins at the line after the three-dash separator. -/
theorem parsedSuggestions_headered_draft_calm :
    parsedSuggestions (splitScript (some headeredDraft)).narrationSuggestions
      = [calmSuggestion] ∧
    (splitScript (some headeredDraft)).scriptTable = some draftTableText := by
  decide

/-- C4 counterexample: with a credential present and a response text that
is not valid JSON (the parse oracle throws), `generateSeoContent` fails
with the generic catch-all error `seoContentFailedError`, whose kind is
`ServiceError`, not `FormatError`. -/
theorem generateSeoContent_invalid_json_not_formatError :
    (generateSeoContent (some (jsOfString "key"))
        (.ok (jsOfString "not json")) (fun _ => none)
        (jsOfString "[]") sampleIdea).result =
      .error seoContentFailedError ∧
    errorKind seoContentFailedError ≠ .FormatError := by
  decide

/-- C4 amended: for every response text that is not valid JSON (the parse
oracle returns none on the trimmed text), `generateSeoContent` fails with
the generic `seoContentFailedError` — a `ServiceError`, the very same error
it throws on transport failure — because the `JSON.parse` call sits inside
the try block whose catch rethrows the generic message. -/
theorem generateSeoContent_invalid_json_serviceError
    (key text finalJson : JsString) (idea : Idea)
    (jsonParse : JsString → Option SeoContent) (e : JsError)
    (h : jsonParse (jsTrim text) = none) :
    generateSeoContent (some key) (.ok text) jsonParse finalJson idea =
      ⟨.error seoContentFailedError, true⟩ ∧
    errorKind seoContentFailedError = .ServiceError ∧
    generateSeoContent (some key) (.error e) jsonParse finalJson idea =
      ⟨.error seoContentFailedError, true⟩ := by
  refine ⟨?_, by decide, rfl⟩
  simp [generateSeoContent, h]

/-- C4 amended witness at a concrete input. -/
theorem generateSeoContent_invalid_json_serviceError_witness :
    generateSeoContent (some (jsOfString "key"))
        (.ok (jsOfString "not json")) (fun _ => none)
        (jsOfString "[]") sampleIdea =
      ⟨.error seoContentFailedError, true⟩ ∧
    errorKind seoContentFailedError = .ServiceError ∧
    generateSeoContent (some (jsOfString "key"))
        (.error ⟨jsOfString "boom"⟩) (fun _ => none)
        (jsOfString "[]") sampleIdea =
      ⟨.error seoContentFailedError, true⟩ :=
  generateSeoContent_invalid_json_serviceError (jsOfString "key")
    (jsOfString "not json") (jsOfString "[]") sampleIdea
    (fun _ => none) ⟨jsOfString "boom"⟩ rfl

/-- C5: on a table block whose header row contains `Timestamp` followed by
one separator row and the single data row, `renderScriptTable` produces
exactly one data row with the two cells `0:00` and `Open`; and any block
none of whose lines contains `timestamp` (case-insensitive) renders as the
verbatim source text — the total fallback, never a thrown error. -/
theorem renderScriptTable_timestamp_row_and_fallback
    (md : JsString)
    (h : ∀ l ∈ jsSplitOn (jsTrim md) (jsOfString "\n"),
      jsIncludes (jsToLower l) (jsOfString "timestamp") = false) :
    renderScriptTable timestampTableBlock =
      .table [jsOfString "Timestamp", jsOfString "Action"]
        [[jsOfString "0:00", jsOfString "Open"]] ∧
    renderScriptTable md = .verbatim md := by
  refine ⟨by decide, ?_⟩
  have hf : (jsSplitOn (jsTrim md) (jsOfString "\n")).find?
      isTimestampHeaderLine = none := by
    rw [List.find?_eq_none]
    intro l hl
    simp [isTimestampHeaderLine, h l hl]
  simp [renderScriptTable, hf]

/-- C5 witness at a concrete headerless block. -/
theorem renderScriptTable_timestamp_row_and_fallback_witness :
    renderScriptTable timestampTableBlock =
      .table [jsOfString "Timestamp", jsOfString "Action"]
        [[jsOfString "0:00", jsOfString "Open"]] ∧
    renderScriptTable (jsOfString "hello\nworld") =
      .verbatim (jsOfString "hello\nworld") :=
  renderScriptTable_timestamp_row_and_fallback (jsOfString "hello\nworld")
    (by decide)

/-- C6: `getTrendingTopics` maps the response text `Cats, Dogs ,  Birds`
to exactly the lower-cased trimmed sequence `cats, dogs, birds` in order,
and maps a blank response text (empty, or whitespace that trims to empty)
to the empty sequence. -/
theorem getTrendingTopics_parsing_examples :
    getTrendingTopics (some (jsOfString "key"))
        (.ok (jsOfString "Cats, Dogs ,  Birds")) [Genre.comedy] =
      ⟨.ok [jsOfString "cats", jsOfString "dogs", jsOfString "birds"], true⟩ ∧
    getTrendingTopics (some (jsOfString "key"))
        (.ok (jsOfString "")) [Genre.comedy] = ⟨.ok [], true⟩ ∧
    getTrendingTopics (some (jsOfString "key"))
        (.ok (jsOfString "   ")) [Genre.comedy] = ⟨.ok [], true⟩ := by
  decide

/-- C7: the code violates the claimed finalize guard.  From the initial
modal state, the user receives a draft, types `100` into the max-scene-
duration input and `0` into the scene-count input (both accepted by an HTML
number input despite the declared `min`/`max` attributes), and clicks
finalize: `onFinalize` fires with duration string `100` — numerically 100,
violating `duration ≤ 60` — and with scene count 0, which is not a positive
integer. -/
theorem modalRun_finalize_violates_bounds :
    modalRun initialModalState
      [.scriptArrives, .setSceneDuration (jsOfString "100"),
       .setNumberOfScenes (jsOfString "0"), .clickFinalize] =
      [⟨jsOfString "100", some (some 0)⟩] ∧
    jsParseInt (jsOfString "100") = some 100 ∧
    ¬((100 : Int) ≤ 60) ∧
    ¬((0 : Int) > 0) := by
  decide

/-- C8: the fence-stripping-and-trimming step is the identity on
already-clean text: no leading `` ```json `` marker, no trailing `` ``` ``
marker, and no surrounding whitespace (trimming is the identity). -/
theorem stripFences_idempotent_on_clean (s : JsString)
    (h1 : jsTrim s = s)
    (h2 : jsStartsWith s (jsOfString "```json") = false)
    (h3 : jsEndsWith s (jsOfString "```") = false) :
    stripFences s = s := by
  simp [stripFences, h1, h2, h3]

/-- C8 witness: the clean JSON array text is returned unchanged. -/
theorem stripFences_idempotent_on_clean_witness :
    stripFences cleanJsonText = cleanJsonText :=
  stripFences_idempotent_on_clean cleanJsonText (by decide) (by decide)
    (by decide)

/-- C9: the leading fence is removed only on an exact `` ```json `` prefix:
whenever the trimmed response does not start with `` ```json `` but ends
with `` ``` ``, only the trailing three characters are dropped (and the
result trimmed); on the concrete plain-fenced response the returned string
keeps its opening fence and still begins with `` ``` ``. -/
theorem stripFences_plain_fence_keeps_opening (s : JsString)
    (h1 : jsStartsWith (jsTrim s) (jsOfString "```json") = false)
    (h2 : jsEndsWith (jsTrim s) (jsOfString "```") = true) :
    stripFences s = jsTrim ((jsTrim s).take ((jsTrim s).length - 3)) ∧
    stripFences plainFencedResponse =
      jsOfString "```\n[\x7b\"scene\":1\x7d]" ∧
    jsStartsWith (stripFences plainFencedResponse) (jsOfString "```")
      = true := by
  refine ⟨?_, by decide, by decide⟩
  simp [stripFences, h1, h2]

/-- C9 witness at the plain-fenced response itself. -/
theorem stripFences_plain_fence_keeps_opening_witness :
    stripFences plainFencedResponse =
      jsTrim ((jsTrim plainFencedResponse).take
        ((jsTrim plainFencedResponse).length - 3)) ∧
    stripFences plainFencedResponse =
      jsOfString "```\n[\x7b\"scene\":1\x7d]" ∧
    jsStartsWith (stripFences plainFencedResponse) (jsOfString "```")
      = true :=
  stripFences_plain_fence_keeps_opening plainFencedResponse (by decide)
    (by decide)

/-- C10: the history detail view parses the stored `jsonScript` with an
unguarded `JSON.parse`: for any history item whose `jsonScript` is not
valid JSON (the parse oracle throws), rendering the item throws instead of
falling back to the raw text. -/
theorem historyDetailView_invalid_json_throws {α : Type}
    (jsonParse : JsString → Option α) (item : ScriptHistoryItem)
    (h : jsonParse item.jsonScript = none) :
    historyDetailView jsonParse (some item) = some .thrown := by
  simp [historyDetailView, renderJson, h]

/-- C10 witness: a concrete item storing the text `not json` throws under a
parse oracle rejecting it. -/
theorem historyDetailView_invalid_json_throws_witness :
    historyDetailView (fun _ => (none : Option Unit))
      (some sampleBadHistoryItem) = some .thrown :=
  historyDetailView_invalid_json_throws (fun _ => none) sampleBadHistoryItem
    rfl
